import Mathlib

/-
Shallow embedding of the execution-core trading engine
(apps/execution-core, Rust) and proofs about it.

Modelling conventions:
* rust_decimal exact decimal values are modelled as rationals; the
  operations appearing in the embedded code (+, -, *, /, abs, compare)
  are exact on the inputs the claims quantify over, matching the spec
  requirement of exact decimal arithmetic with no intermediate rounding.
* UUIDs are modelled as natural numbers (the 128-bit value); the nil
  UUID is 0.
* The Postgres store and the in-memory caches are modelled as lists;
  SQL statements become list operations preserving the order of rows.
* Nondeterministic inputs of the code (fresh UUIDs, clock reads) are
  passed as explicit parameters.
-/

namespace ExecutionCore

abbrev Decimal := ℚ

abbrev Uuid := ℕ

def nilUuid : Uuid := 0

abbrev Timestamp := ℕ

/-- Position row, from engine/position_keeper.rs (struct Position). -/
structure Position where
  account_id : Uuid
  symbol : String
  net_quantity : Decimal
  avg_price : Decimal
  realized_pnl : Decimal
  unrealized_pnl : Decimal
  cost_basis : Decimal
  updated_at : Timestamp
deriving Repr, DecidableEq

/-- Fill value, from engine/position_keeper.rs (struct Fill). -/
structure Fill where
  account_id : Uuid
  symbol : String
  side : String
  quantity : Decimal
  price : Decimal
deriving Repr, DecidableEq

/-- Sign helper from calculate_new_position: returns 1 for positive
decimals and -1 otherwise (local closure sign_multiplier). -/
def sign_multiplier (d : Decimal) : Decimal :=
  if d > 0 then 1 else -1

/-- Signed fill quantity: fill.quantity for a buy, negated otherwise
(local binding fill_qty_signed in calculate_new_position). -/
def fill_qty_signed (fill : Fill) : Decimal :=
  if fill.side = "buy" then fill.quantity else -fill.quantity

/-- PositionKeeper.calculate_new_position from
engine/position_keeper.rs lines 122-167: weighted-average position
update returning (new_quantity, new_avg_price, realized_delta). -/
def calculate_new_position (pos : Position) (fill : Fill) :
    Decimal × Decimal × Decimal :=
  let new_quantity := pos.net_quantity + fill_qty_signed fill
  let same_direction :=
    (pos.net_quantity > 0 ∧ fill_qty_signed fill > 0) ∨
    (pos.net_quantity < 0 ∧ fill_qty_signed fill < 0)
  if same_direction then
    -- Rule 1: increasing position (same direction)
    let total_cost := |pos.net_quantity| * pos.avg_price + fill.quantity * fill.price
    let new_avg := total_cost / |new_quantity|
    (new_quantity, new_avg, 0)
  else
    let still_same_side :=
      (pos.net_quantity > 0 ∧ new_quantity > 0) ∨
      (pos.net_quantity < 0 ∧ new_quantity < 0)
    if new_quantity ≠ 0 ∧ still_same_side then
      -- Rule 2: reducing position (opposite direction, same sign result)
      let realized :=
        fill.quantity * (fill.price - pos.avg_price) * sign_multiplier pos.net_quantity
      (new_quantity, pos.avg_price, realized)
    else if new_quantity = 0 then
      -- Rule 3: closing position exactly
      let realized :=
        |pos.net_quantity| * (fill.price - pos.avg_price) * sign_multiplier pos.net_quantity
      (0, 0, realized)
    else
      -- Rule 4: crossing zero (close old + open new)
      let close_qty := |pos.net_quantity|
      let realized :=
        close_qty * (fill.price - pos.avg_price) * sign_multiplier pos.net_quantity
      (new_quantity, fill.price, realized)

/-- PositionKeeper.calculate_new_position_from_zero from
engine/position_keeper.rs lines 170-173. -/
def calculate_new_position_from_zero (fill : Fill) :
    Decimal × Decimal × Decimal :=
  let qty := if fill.side = "buy" then fill.quantity else -fill.quantity
  (qty, fill.price, 0)

/-- A prior long position of given quantity and average price, used to
state the concrete section-8 scenarios. -/
def mkPriorPosition (acct : Uuid) (sym : String) (qty avg : Decimal) : Position :=
  { account_id := acct, symbol := sym, net_quantity := qty, avg_price := avg,
    realized_pnl := 0, unrealized_pnl := 0, cost_basis := |qty| * avg,
    updated_at := 0 }

def mkFill (side : String) (qty price : Decimal) : Fill :=
  { account_id := 1, symbol := "BTC-USD", side := side, quantity := qty,
    price := price }

theorem sell_ne_buy : ("sell" : String) ≠ "buy" := by decide

theorem weighted_mean_mem (a b p q : ℚ) (ha : 0 < a) (hb : 0 < b) :
    min p q ≤ (a * p + b * q) / (a + b) ∧ (a * p + b * q) / (a + b) ≤ max p q := by
  have hab : (0 : ℚ) < a + b := by linarith
  constructor
  · rw [le_div_iff hab]
    rcases le_total p q with h | h
    · rw [min_eq_left h]; nlinarith
    · rw [min_eq_right h]; nlinarith
  · rw [div_le_iff hab]
    rcases le_total p q with h | h
    · rw [max_eq_right h]; nlinarith
    · rw [max_eq_left h]; nlinarith

end ExecutionCore

namespace ExecutionCore

/-- C1: the six concrete scenarios of spec section 8 evaluate to the
stated triples (new quantity, new average price, realized delta):
A flat buy 10 @ 100 gives (10, 100, 0); B long 10 @ 100 buy 10 @ 120
gives (20, 110, 0); C long 10 @ 100 sell 5 @ 120 gives (5, 100, 100);
D long 10 @ 100 sell 10 @ 150 gives (0, 0, 500); E long 10 @ 100 sell
15 @ 120 gives (-5, 120, 200); F short 10 @ 100 buy 10 @ 80 gives
(0, 0, 200). -/
theorem scenario_table_section8 :
    calculate_new_position_from_zero (mkFill "buy" 10 100) = (10, 100, 0) ∧
    calculate_new_position (mkPriorPosition 1 "BTC-USD" 10 100) (mkFill "buy" 10 120)
      = (20, 110, 0) ∧
    calculate_new_position (mkPriorPosition 1 "BTC-USD" 10 100) (mkFill "sell" 5 120)
      = (5, 100, 100) ∧
    calculate_new_position (mkPriorPosition 1 "BTC-USD" 10 100) (mkFill "sell" 10 150)
      = (0, 0, 500) ∧
    calculate_new_position (mkPriorPosition 1 "BTC-USD" 10 100) (mkFill "sell" 15 120)
      = (-5, 120, 200) ∧
    calculate_new_position (mkPriorPosition 1 "BTC-USD" (-10) 100) (mkFill "buy" 10 80)
      = (0, 0, 200) := by
  refine ⟨?_, ?_, ?_, ?_, ?_, ?_⟩ <;>
    norm_num [calculate_new_position, calculate_new_position_from_zero,
      fill_qty_signed, sign_multiplier, mkPriorPosition, mkFill, sell_ne_buy,
      Prod.ext_iff]

end ExecutionCore

namespace ExecutionCore

/-- C7: for every prior position and every fill with positive quantity,
the new net quantity returned by the position-update computation equals
the prior net quantity plus the fill quantity for a buy and minus the
fill quantity otherwise, through every case branch; likewise for the
flat-prior computation. -/
theorem new_qty_additive (pos : Position) (fill : Fill)
    (hq : 0 < fill.quantity) :
    (calculate_new_position pos fill).1
        = pos.net_quantity
          + (if fill.side = "buy" then fill.quantity else -fill.quantity) ∧
    (calculate_new_position_from_zero fill).1
        = 0 + (if fill.side = "buy" then fill.quantity else -fill.quantity) := by
  constructor
  · show _ = pos.net_quantity + fill_qty_signed fill
    simp only [calculate_new_position]
    split_ifs with h1 h2 h3
    · rfl
    · rfl
    · simpa using h3.symm
    · rfl
  · show _ = 0 + fill_qty_signed fill
    simp only [calculate_new_position_from_zero, fill_qty_signed, zero_add]

/-- Witness for new_qty_additive at the scenario-B input. -/
theorem new_qty_additive_witness :
    (calculate_new_position (mkPriorPosition 1 "BTC-USD" 10 100)
        (mkFill "buy" 10 120)).1
      = (mkPriorPosition 1 "BTC-USD" 10 100).net_quantity
        + (if (mkFill "buy" 10 120).side = "buy"
            then (mkFill "buy" 10 120).quantity
            else -(mkFill "buy" 10 120).quantity) ∧
    (calculate_new_position_from_zero (mkFill "buy" 10 120)).1
      = 0 + (if (mkFill "buy" 10 120).side = "buy"
              then (mkFill "buy" 10 120).quantity
              else -(mkFill "buy" 10 120).quantity) :=
  new_qty_additive (mkPriorPosition 1 "BTC-USD" 10 100) (mkFill "buy" 10 120)
    (by norm_num [mkFill])

/-- C8: on an Increase (nonzero prior position, signed fill quantity of
the same sign, positive fill quantity and price, nonnegative prior
average), the new average price lies between the prior average and the
fill price. -/
theorem increase_avg_price_between (pos : Position) (fill : Fill)
    (hne : pos.net_quantity ≠ 0)
    (hsame : (pos.net_quantity > 0 ∧ fill_qty_signed fill > 0) ∨
             (pos.net_quantity < 0 ∧ fill_qty_signed fill < 0))
    (hq : 0 < fill.quantity) (hp : 0 < fill.price)
    (havg : 0 ≤ pos.avg_price) :
    min pos.avg_price fill.price ≤ (calculate_new_position pos fill).2.1 ∧
    (calculate_new_position pos fill).2.1 ≤ max pos.avg_price fill.price := by
  have habs : |pos.net_quantity + fill_qty_signed fill|
      = |pos.net_quantity| + fill.quantity := by
    rcases hsame with ⟨h1, h2⟩ | ⟨h1, h2⟩
    · have hfq : fill_qty_signed fill = fill.quantity := by
        by_cases hb : fill.side = "buy"
        · simp [fill_qty_signed, hb]
        · exfalso
          have : fill_qty_signed fill = -fill.quantity := by
            simp [fill_qty_signed, hb]
          rw [this] at h2; linarith
      rw [hfq, abs_of_pos (by linarith), abs_of_pos h1]
    · have hfq : fill_qty_signed fill = -fill.quantity := by
        by_cases hb : fill.side = "buy"
        · exfalso
          have : fill_qty_signed fill = fill.quantity := by
            simp [fill_qty_signed, hb]
          rw [this] at h2; linarith
        · simp [fill_qty_signed, hb]
      rw [hfq, abs_of_neg (by linarith), abs_of_neg h1]; ring
  simp only [calculate_new_position]
  rw [if_pos hsame, habs]
  exact weighted_mean_mem |pos.net_quantity| fill.quantity pos.avg_price
    fill.price (abs_pos.mpr hne) hq

/-- Witness for increase_avg_price_between at the scenario-B input. -/
theorem increase_avg_price_between_witness :
    min (100 : ℚ) 120
        ≤ (calculate_new_position (mkPriorPosition 1 "BTC-USD" 10 100)
            (mkFill "buy" 10 120)).2.1 ∧
    (calculate_new_position (mkPriorPosition 1 "BTC-USD" 10 100)
        (mkFill "buy" 10 120)).2.1 ≤ max (100 : ℚ) 120 :=
  increase_avg_price_between (mkPriorPosition 1 "BTC-USD" 10 100)
    (mkFill "buy" 10 120)
    (by norm_num [mkPriorPosition])
    (Or.inl ⟨by norm_num [mkPriorPosition], by norm_num [fill_qty_signed, mkFill]⟩)
    (by norm_num [mkFill]) (by norm_num [mkFill]) (by norm_num [mkPriorPosition])

end ExecutionCore

namespace ExecutionCore

/-- Principal, from auth/mod.rs (struct AuthContext); the permission
set is modelled as a list. -/
structure AuthContext where
  account_id : Uuid
  username : String
  role : String
  permissions : List String
  token_jti : String
deriving Repr, DecidableEq

/-- AuthContext.has_permission from auth/mod.rs lines 32-34. -/
def AuthContext.has_permission (auth : AuthContext) (permission : String) : Bool :=
  auth.permissions.contains permission || auth.permissions.contains "admin:full"

/-- AuthContext.can_access_account from auth/mod.rs lines 36-40. -/
def AuthContext.can_access_account (auth : AuthContext) (target : Uuid) : Bool :=
  auth.account_id == target
    || auth.has_permission "admin:full"
    || auth.has_permission "accounts:read_all"

/-- AuthError variants from auth/mod.rs that the embedded code
constructs (foreign-error wrappers are not needed by any claim). -/
inductive AuthError where
  | InvalidToken (msg : String)
  | TokenExpired
  | TokenRevoked
  | InsufficientPermissions (msg : String)
  | AccountNotFound
  | AccountDisabled
  | DatabaseError (msg : String)
deriving Repr, DecidableEq

def ORDERS_CREATE : String := "orders:create"

/-- Order row, from engine/order_processor.rs (struct Order). -/
structure Order where
  id : Uuid
  account_id : Uuid
  client_order_id : String
  symbol : String
  side : String
  order_type : String
  quantity : Decimal
  price : Option Decimal
  filled_quantity : Decimal
  avg_fill_price : Option Decimal
  status : String
  created_at : Timestamp
  updated_at : Timestamp
deriving Repr, DecidableEq

/-- Submit request, from engine/order_processor.rs
(struct NewOrderRequest). -/
structure NewOrderRequest where
  client_order_id : String
  account_id : Option String
  symbol : String
  side : String
  order_type : String
  quantity : Decimal
  price : Option Decimal
  time_in_force : Option String
deriving Repr, DecidableEq

/-- Submission outcome, from engine/order_processor.rs
(enum OrderResult). -/
inductive OrderResult where
  | Accepted (order : Order)
  | Rejected (reason : String) (code : String)
  | Duplicate (order : Order)
deriving Repr, DecidableEq

/-- The OrderProcessor state: the orders table rows and the in-memory
open-orders cache (HashMap keyed by order id, modelled as a list with
distinct ids). -/
structure OPState where
  ordersStore : List Order
  ordersCache : List Order
deriving Repr, DecidableEq

/-- HashMap.insert keyed by id: replace the entry if present, append
otherwise. -/
def cacheInsert (cache : List Order) (o : Order) : List Order :=
  if cache.any (fun x => x.id == o.id) then
    cache.map (fun x => if x.id == o.id then o else x)
  else
    cache ++ [o]

/-- HashMap.remove keyed by id. -/
def cacheRemove (cache : List Order) (id : Uuid) : List Order :=
  cache.filter (fun x => !(x.id == id))

/-- The SELECT by unique key (account_id, client_order_id) issued at
the top of submit_order. -/
def findByKey (store : List Order) (acct : Uuid) (cid : String) : Option Order :=
  store.find? (fun o => o.account_id == acct && o.client_order_id == cid)

/-- The row built and inserted by submit_order (the local binding
order in engine/order_processor.rs lines 260-281): fresh id, the
principal account, filled_quantity 0, status pending, both timestamps
now. -/
def submittedOrder (auth : AuthContext) (req : NewOrderRequest)
    (freshId : Uuid) (now : Timestamp) : Order :=
  { id := freshId, account_id := auth.account_id,
    client_order_id := req.client_order_id, symbol := req.symbol,
    side := req.side, order_type := req.order_type,
    quantity := req.quantity, price := req.price,
    filled_quantity := 0, avg_fill_price := none, status := "pending",
    created_at := now, updated_at := now }

/-- OrderProcessor.submit_order from engine/order_processor.rs lines
236-285; the fresh UUID and the clock reading are passed explicitly. -/
def submit_order (auth : AuthContext) (req : NewOrderRequest)
    (freshId : Uuid) (now : Timestamp) (st : OPState) :
    Except AuthError OrderResult × OPState :=
  if auth.has_permission ORDERS_CREATE = false then
    (Except.error (AuthError.InsufficientPermissions "orders:create required"), st)
  else
    match findByKey st.ordersStore auth.account_id req.client_order_id with
    | some order => (Except.ok (OrderResult.Duplicate order), st)
    | none =>
      let order := submittedOrder auth req freshId now
      (Except.ok (OrderResult.Accepted order),
        { ordersStore := st.ordersStore ++ [order],
          ordersCache := cacheInsert st.ordersCache order })

end ExecutionCore

namespace ExecutionCore

/-- C3: with the orders:create permission and no existing row for the
key, submitting the same (account id, client order id) twice yields
Accepted with a new order, then Duplicate of that same order; the
second submission leaves the state unchanged and exactly one row with
that key exists. -/
theorem submit_twice_accepted_then_duplicate
    (auth : AuthContext) (req : NewOrderRequest) (id1 id2 : Uuid)
    (t1 t2 : Timestamp) (st : OPState)
    (hperm : auth.has_permission ORDERS_CREATE = true)
    (hfresh : findByKey st.ordersStore auth.account_id req.client_order_id
      = none) :
    ∃ o st1,
      submit_order auth req id1 t1 st
          = (Except.ok (OrderResult.Accepted o), st1) ∧
      submit_order auth req id2 t2 st1
          = (Except.ok (OrderResult.Duplicate o), st1) ∧
      (st1.ordersStore.filter (fun x =>
          x.account_id == auth.account_id
            && x.client_order_id == req.client_order_id)).length = 1 := by
  refine ⟨submittedOrder auth req id1 t1,
    { ordersStore := st.ordersStore ++ [submittedOrder auth req id1 t1],
      ordersCache := cacheInsert st.ordersCache (submittedOrder auth req id1 t1) },
    ?_, ?_, ?_⟩
  · simp [submit_order, hperm, hfresh]
  · have hfind : findByKey
        (st.ordersStore ++ [submittedOrder auth req id1 t1])
        auth.account_id req.client_order_id
        = some (submittedOrder auth req id1 t1) := by
      unfold findByKey at hfresh ⊢
      rw [List.find?_append, hfresh]
      simp [submittedOrder]
    simp [submit_order, hperm, hfind]
  · have h0 := List.find?_eq_none.mp hfresh
    simp only [List.filter_append]
    rw [List.filter_eq_nil_iff.mpr h0]
    simp [submittedOrder]

/-- Witness for submit_twice_accepted_then_duplicate at a concrete
principal, request and empty store. -/
theorem submit_twice_accepted_then_duplicate_witness :
    ∃ o st1,
      submit_order
          { account_id := 1, username := "alice", role := "trader",
            permissions := ["orders:create"], token_jti := "" }
          { client_order_id := "abc", account_id := none,
            symbol := "BTC-USD", side := "buy", order_type := "limit",
            quantity := 1, price := some 50000, time_in_force := none }
          42 5 ⟨[], []⟩
          = (Except.ok (OrderResult.Accepted o), st1) ∧
      submit_order
          { account_id := 1, username := "alice", role := "trader",
            permissions := ["orders:create"], token_jti := "" }
          { client_order_id := "abc", account_id := none,
            symbol := "BTC-USD", side := "buy", order_type := "limit",
            quantity := 1, price := some 50000, time_in_force := none }
          43 6 st1
          = (Except.ok (OrderResult.Duplicate o), st1) ∧
      (st1.ordersStore.filter (fun x =>
          x.account_id == (1 : Uuid) && x.client_order_id == "abc")).length
        = 1 :=
  submit_twice_accepted_then_duplicate _ _ 42 43 5 6 ⟨[], []⟩ rfl rfl

end ExecutionCore

namespace ExecutionCore

/-- C10: submit_order never reads the account_id field of the request;
two requests equal in every other field produce identical results and
identical states, and any accepted order carries the principal account
id. -/
theorem submit_order_ignores_request_account (auth : AuthContext)
    (req1 req2 : NewOrderRequest) (fid : Uuid) (now : Timestamp) (st : OPState)
    (h1 : req1.client_order_id = req2.client_order_id)
    (h2 : req1.symbol = req2.symbol)
    (h3 : req1.side = req2.side)
    (h4 : req1.order_type = req2.order_type)
    (h5 : req1.quantity = req2.quantity)
    (h6 : req1.price = req2.price)
    (h7 : req1.time_in_force = req2.time_in_force) :
    submit_order auth req1 fid now st = submit_order auth req2 fid now st ∧
    (∀ o st1, submit_order auth req1 fid now st
        = (Except.ok (OrderResult.Accepted o), st1) →
      o.account_id = auth.account_id) := by
  constructor
  · cases req1
    cases req2
    simp only at h1 h2 h3 h4 h5 h6 h7
    subst h1 h2 h3 h4 h5 h6 h7
    rfl
  · intro o st1 h
    by_cases hp : auth.has_permission ORDERS_CREATE = false
    · simp [submit_order, hp] at h
    · rcases hfind : findByKey st.ordersStore auth.account_id
          req1.client_order_id with _ | ord
      · rw [submit_order, if_neg hp, hfind] at h
        simp only [Prod.mk.injEq, Except.ok.injEq,
          OrderResult.Accepted.injEq] at h
        obtain ⟨ho, -⟩ := h
        rw [← ho]
        rfl
      · rw [submit_order, if_neg hp, hfind] at h
        simp at h

end ExecutionCore

namespace ExecutionCore

/-- Witness for submit_order_ignores_request_account: two concrete
requests differing only in their account_id field. -/
theorem submit_order_ignores_request_account_witness :
    submit_order
        { account_id := 1, username := "alice", role := "trader",
          permissions := ["orders:create"], token_jti := "" }
        { client_order_id := "abc", account_id := none,
          symbol := "BTC-USD", side := "buy", order_type := "limit",
          quantity := 1, price := some 50000, time_in_force := none }
        42 5 ⟨[], []⟩
      = submit_order
        { account_id := 1, username := "alice", role := "trader",
          permissions := ["orders:create"], token_jti := "" }
        { client_order_id := "abc", account_id := some "other-account",
          symbol := "BTC-USD", side := "buy", order_type := "limit",
          quantity := 1, price := some 50000, time_in_force := none }
        42 5 ⟨[], []⟩ ∧
    (∀ o st1, submit_order
        { account_id := 1, username := "alice", role := "trader",
          permissions := ["orders:create"], token_jti := "" }
        { client_order_id := "abc", account_id := none,
          symbol := "BTC-USD", side := "buy", order_type := "limit",
          quantity := 1, price := some 50000, time_in_force := none }
        42 5 ⟨[], []⟩
        = (Except.ok (OrderResult.Accepted o), st1) →
      o.account_id = (1 : Uuid)) :=
  submit_order_ignores_request_account _ _ _ 42 5 ⟨[], []⟩
    rfl rfl rfl rfl rfl rfl rfl

/-- Concrete principal holding orders:create, used for the C5
counterexample. -/
def noValidationAuth : AuthContext :=
  { account_id := 1, username := "alice", role := "trader",
    permissions := ["orders:create"], token_jti := "" }

/-- A submit request that is invalid twice over: zero quantity, and
order type limit with no price. -/
def noValidationReq : NewOrderRequest :=
  { client_order_id := "bad-1", account_id := none, symbol := "BTC-USD",
    side := "buy", order_type := "limit", quantity := 0, price := none,
    time_in_force := none }

/-- The row submit_order inserts for noValidationReq. -/
def noValidationOrder : Order :=
  { id := 42, account_id := 1, client_order_id := "bad-1",
    symbol := "BTC-USD", side := "buy", order_type := "limit",
    quantity := 0, price := none, filled_quantity := 0,
    avg_fill_price := none, status := "pending", created_at := 7,
    updated_at := 7 }

/-- C5 failing input: submit_order performs no validation at all; a
request with zero quantity and order type limit without a price is
Accepted and its row is inserted into the store and the cache, rather
than rejected with no insert. -/
theorem submit_accepts_invalid_order :
    submit_order noValidationAuth noValidationReq 42 7 ⟨[], []⟩
        = (Except.ok (OrderResult.Accepted noValidationOrder),
           { ordersStore := [noValidationOrder],
             ordersCache := [noValidationOrder] }) ∧
      noValidationOrder.quantity = 0 ∧
      noValidationOrder.order_type = "limit" ∧
      noValidationOrder.price = none :=
  ⟨rfl, rfl, rfl, rfl⟩

end ExecutionCore

namespace ExecutionCore

def hexDigit (c : Char) : Option Nat :=
  if '0' ≤ c ∧ c ≤ '9' then some (c.toNat - '0'.toNat)
  else if 'a' ≤ c ∧ c ≤ 'f' then some (c.toNat - 'a'.toNat + 10)
  else if 'A' ≤ c ∧ c ≤ 'F' then some (c.toNat - 'A'.toNat + 10)
  else none

def hexToNat (cs : List Char) : Option Nat :=
  cs.foldl
    (fun acc c =>
      match acc, hexDigit c with
      | some a, some d => some (a * 16 + d)
      | _, _ => none)
    (some 0)

/-- Split a character list into the groups separated by hyphens. -/
def splitOnDash : List Char → List (List Char)
  | [] => [[]]
  | c :: rest =>
    if c = '-' then [] :: splitOnDash rest
    else
      match splitOnDash rest with
      | g :: gs => (c :: g) :: gs
      | [] => [[c]]

/-- Uuid::parse_str, modelling the two wire formats the subscriber can
receive: the hyphenated 8-4-4-4-12 form and the simple 32-hex-digit
form; anything else fails to parse. -/
def Uuid.parse_str (s : String) : Option Uuid :=
  match splitOnDash s.toList with
  | [g] => if g.length = 32 then hexToNat g else none
  | [a, b, c, d, e] =>
      if a.length = 8 ∧ b.length = 4 ∧ c.length = 4 ∧ d.length = 4
          ∧ e.length = 12 then
        hexToNat (a ++ b ++ c ++ d ++ e)
      else none
  | _ => none

/-- Auth envelope of every authenticated bus message, from
nats_handler/subscriber.rs (struct AuthPayload). -/
structure AuthPayload where
  account_id : String
  username : String
  role : String
  permissions : List String
deriving Repr, DecidableEq

/-- The From AuthPayload for AuthContext conversion from
nats_handler/subscriber.rs lines 36-46: parse_str(...).unwrap_or_default()
falls back to the nil UUID, and token_jti is left empty. -/
def authContextOfPayload (p : AuthPayload) : AuthContext :=
  { account_id := (Uuid.parse_str p.account_id).getD nilUuid,
    username := p.username, role := p.role, permissions := p.permissions,
    token_jti := "" }

/-- Reply published for order operations, from
nats_handler/subscriber.rs (struct OrderResponse); the order id is
kept as an id rather than its string rendering. -/
structure OrderResponse where
  success : Bool
  order_id : Option Uuid
  error : Option String
deriving Repr, DecidableEq

/-- Rendering of AuthError by its thiserror Display implementation in
auth/mod.rs. -/
def authErrorMessage : AuthError → String
  | .InvalidToken m => "Invalid token: " ++ m
  | .TokenExpired => "Token expired"
  | .TokenRevoked => "Token revoked"
  | .InsufficientPermissions m => "Insufficient permissions: " ++ m
  | .AccountNotFound => "Account not found"
  | .AccountDisabled => "Account disabled"
  | .DatabaseError m => "Database error: " ++ m

/-- The match over submit_order results inside handle_order_submit
(nats_handler/subscriber.rs lines 128-153). -/
def respondToSubmit (auth : AuthContext) (req : NewOrderRequest)
    (freshId : Uuid) (now : Timestamp) (st : OPState) :
    OrderResponse × OPState :=
  match submit_order auth req freshId now st with
  | (Except.ok (OrderResult.Accepted order), st1) =>
      ({ success := true, order_id := some order.id, error := none }, st1)
  | (Except.ok (OrderResult.Duplicate order), st1) =>
      ({ success := true, order_id := some order.id,
         error := some "Duplicate order" }, st1)
  | (Except.ok (OrderResult.Rejected reason _), st1) =>
      ({ success := false, order_id := none, error := some reason }, st1)
  | (Except.error e, st1) =>
      ({ success := false, order_id := none,
         error := some (authErrorMessage e) }, st1)

/-- NatsSubscriber.handle_order_submit from nats_handler/subscriber.rs
lines 124-166; the serde deserialization result is the Option argument
(none models an undeserializable payload, answered with the invalid
payload response). -/
def handle_order_submit (parsed : Option (AuthPayload × NewOrderRequest))
    (freshId : Uuid) (now : Timestamp) (st : OPState) :
    OrderResponse × OPState :=
  match parsed with
  | some (payload, req) =>
      respondToSubmit (authContextOfPayload payload) req freshId now st
  | none =>
      ({ success := false, order_id := none,
         error := some "Invalid payload" }, st)

/-- C9: a deserializable message whose auth envelope carries an
unparseable account id is not rejected; the conversion substitutes the
nil UUID and the handler dispatches to the order processor under that
principal. -/
theorem bad_account_uuid_defaults_to_nil (payload : AuthPayload)
    (req : NewOrderRequest) (fid : Uuid) (now : Timestamp) (st : OPState)
    (hbad : Uuid.parse_str payload.account_id = none) :
    (authContextOfPayload payload).account_id = nilUuid ∧
    handle_order_submit (some (payload, req)) fid now st
      = respondToSubmit (authContextOfPayload payload) req fid now st := by
  constructor
  · simp [authContextOfPayload, hbad]
  · rfl

/-- Witness for bad_account_uuid_defaults_to_nil at a concrete
payload whose account_id is not a UUID. -/
theorem bad_account_uuid_defaults_to_nil_witness :
    (authContextOfPayload
        { account_id := "not-a-uuid", username := "alice",
          role := "trader", permissions := ["orders:create"] }).account_id
      = nilUuid ∧
    handle_order_submit
        (some ({ account_id := "not-a-uuid", username := "alice",
                 role := "trader", permissions := ["orders:create"] },
               { client_order_id := "abc", account_id := none,
                 symbol := "BTC-USD", side := "buy", order_type := "limit",
                 quantity := 1, price := some 50000,
                 time_in_force := none }))
        42 5 ⟨[], []⟩
      = respondToSubmit
          (authContextOfPayload
            { account_id := "not-a-uuid", username := "alice",
              role := "trader", permissions := ["orders:create"] })
          { client_order_id := "abc", account_id := none,
            symbol := "BTC-USD", side := "buy", order_type := "limit",
            quantity := 1, price := some 50000, time_in_force := none }
          42 5 ⟨[], []⟩ :=
  bad_account_uuid_defaults_to_nil _ _ 42 5 ⟨[], []⟩ (by decide)

end ExecutionCore

namespace ExecutionCore

/-- Trade row inserted by fill_order (the INSERT INTO trades binds
exactly these six columns; created_at is filled by the store). -/
structure Trade where
  order_id : Uuid
  account_id : Uuid
  symbol : String
  side : String
  quantity : Decimal
  price : Decimal
deriving Repr, DecidableEq

/-- PositionKeeper state: the positions table rows and the in-memory
positions cache (HashMap keyed by (account_id, symbol)). -/
structure PKState where
  positionsStore : List Position
  positionsCache : List Position
deriving Repr, DecidableEq

/-- Key predicate on positions rows: matches (account_id, symbol). -/
def posMatches (acct : Uuid) (sym : String) (p : Position) : Bool :=
  p.account_id == acct && p.symbol == sym

/-- HashMap.insert keyed by (account_id, symbol). -/
def posCacheInsert (cache : List Position) (p : Position) : List Position :=
  if cache.any (posMatches p.account_id p.symbol) then
    cache.map (fun x => if posMatches p.account_id p.symbol x then p else x)
  else cache ++ [p]

/-- PositionKeeper.apply_fill from engine/position_keeper.rs lines
69-119: read the cached position, compute the next state, upsert the
row (ON CONFLICT accumulates realized_pnl and leaves unrealized_pnl,
the insert arm zeroes unrealized_pnl), then update or evict the cache
entry. Returns the new state and the RETURNING row. -/
def apply_fill (st : PKState) (now : Timestamp) (fill : Fill) :
    PKState × Position :=
  let current := st.positionsCache.find? (posMatches fill.account_id fill.symbol)
  let res :=
    match current with
    | some pos => calculate_new_position pos fill
    | none => calculate_new_position_from_zero fill
  let new_quantity := res.1
  let new_avg_price := res.2.1
  let realized_pnl := res.2.2
  let cost_basis := |new_quantity| * new_avg_price
  let position :=
    match st.positionsStore.find? (posMatches fill.account_id fill.symbol) with
    | some old =>
        { old with
          net_quantity := new_quantity
          avg_price := new_avg_price
          realized_pnl := old.realized_pnl + realized_pnl
          cost_basis := cost_basis
          updated_at := now }
    | none =>
        { account_id := fill.account_id, symbol := fill.symbol,
          net_quantity := new_quantity, avg_price := new_avg_price,
          realized_pnl := realized_pnl, unrealized_pnl := 0,
          cost_basis := cost_basis, updated_at := now }
  let store1 :=
    match st.positionsStore.find? (posMatches fill.account_id fill.symbol) with
    | some _ => st.positionsStore.map
        (fun p => if posMatches fill.account_id fill.symbol p then position else p)
    | none => st.positionsStore ++ [position]
  let cache1 :=
    if new_quantity = 0 then
      st.positionsCache.filter (fun p => !(posMatches fill.account_id fill.symbol p))
    else posCacheInsert st.positionsCache position
  (⟨store1, cache1⟩, position)

/-- Combined engine state touched by the tick-driven fill path. -/
structure EngineState where
  ordersStore : List Order
  trades : List Trade
  ordersCache : List Order
  positions : PKState
deriving Repr, DecidableEq

/-- OrderProcessor.fill_order from engine/order_processor.rs lines
177-230: insert a trade row, update the orders row WHERE id matches
(unconditionally of its current status, with no affected-row check),
remove the id from the cache, then apply the fill to the position. -/
def fill_order (ord : Order) (price : Decimal) (now : Timestamp)
    (st : EngineState) : EngineState :=
  let trades1 := st.trades ++
    [{ order_id := ord.id, account_id := ord.account_id, symbol := ord.symbol,
       side := ord.side, quantity := ord.quantity, price := price }]
  let ordersStore1 := st.ordersStore.map (fun o =>
    if o.id == ord.id then
      { o with
        status := "filled"
        filled_quantity := o.quantity
        avg_fill_price := some price
        updated_at := now }
    else o)
  let cache1 := cacheRemove st.ordersCache ord.id
  let positions1 := (apply_fill st.positions now
    { account_id := ord.account_id, symbol := ord.symbol, side := ord.side,
      quantity := ord.quantity, price := price }).1
  { ordersStore := ordersStore1, trades := trades1, ordersCache := cache1,
    positions := positions1 }

/-- Market tick, from engine/order_processor.rs (struct MarketTick):
the last price arrives as a string. -/
structure MarketTick where
  symbol : String
  last_price : String
deriving Repr, DecidableEq

def digitsToNat (cs : List Char) : Nat :=
  cs.foldl (fun acc c => acc * 10 + (c.toNat - '0'.toNat)) 0

/-- Mantissa-and-scale phase of decimal-string parsing: an optional
minus sign, a nonempty all-digit integer part and an optional nonempty
all-digit fraction part give (negative, mantissa, scale), the way
rust_decimal from_str accumulates digits and a scale. -/
def parseDecimalParts (s : String) : Option (Bool × Nat × Nat) :=
  let (neg, body) :=
    match s.toList with
    | '-' :: cs => (true, cs)
    | cs => (false, cs)
  let intPart := body.takeWhile (fun c => !(c = '.'))
  let rest := body.dropWhile (fun c => !(c = '.'))
  match rest with
  | [] =>
      if intPart ≠ [] ∧ intPart.all Char.isDigit then
        some (neg, digitsToNat intPart, 0)
      else none
  | _ :: fracPart =>
      if intPart ≠ [] ∧ fracPart ≠ [] ∧ intPart.all Char.isDigit
          ∧ fracPart.all Char.isDigit then
        some (neg, digitsToNat (intPart ++ fracPart), fracPart.length)
      else none

/-- Decimal-string parsing for tick.last_price.parse, for the inputs
the dispatcher receives; the parsed value is mantissa over ten to the
scale, negated under a minus sign. -/
def parseDecimal (s : String) : Option Decimal :=
  match parseDecimalParts s with
  | some (neg, m, scale) =>
      some ((if neg then -1 else 1) * (m : ℚ) / (10 : ℚ) ^ scale)
  | none => none

/-- The limit-crossing test from the filter in process_market_tick
(the match on (o.side.as_str(), o.price)). -/
def crossesLimit (price : Decimal) (o : Order) : Bool :=
  if o.side = "buy" then
    match o.price with
    | some limit => decide (price ≤ limit)
    | none => false
  else if o.side = "sell" then
    match o.price with
    | some limit => decide (price ≥ limit)
    | none => false
  else false

/-- The whole filter predicate of process_market_tick. -/
def tickMatches (tick : MarketTick) (price : Decimal) (o : Order) : Bool :=
  o.symbol == tick.symbol && o.status == "pending" && crossesLimit price o

/-- The matched list cloned out of the open-orders cache under the
read lock. -/
def matchedOrders (cache : List Order) (tick : MarketTick) (price : Decimal) :
    List Order :=
  cache.filter (tickMatches tick price)

/-- OrderProcessor.process_market_tick from engine/order_processor.rs
lines 139-175: parse the price (dropping the tick on failure), filter
the cache, then fill each matched order at the tick price. -/
def process_market_tick (tick : MarketTick) (now : Timestamp)
    (st : EngineState) : EngineState :=
  match parseDecimal tick.last_price with
  | none => st
  | some price =>
      (matchedOrders st.ordersCache tick price).foldl
        (fun s o => fill_order o price now s) st

end ExecutionCore

namespace ExecutionCore

theorem crossesLimit_iff (price : Decimal) (o : Order) :
    crossesLimit price o = true ↔
      ((o.side = "buy" ∧ ∃ limit, o.price = some limit ∧ price ≤ limit) ∨
       (o.side = "sell" ∧ ∃ limit, o.price = some limit ∧ price ≥ limit)) := by
  unfold crossesLimit
  by_cases hb : o.side = "buy"
  · cases hp : o.price <;> simp [hb, hp]
  · by_cases hs : o.side = "sell"
    · cases hp : o.price <;> simp [hb, hs, hp]
    · simp [hb, hs]

/-- C4: given a parseable tick price, the orders selected for filling
are exactly the cached orders with matching symbol, status pending and
a crossed limit (buy at price at most the limit, sell at price at
least the limit); orders without a limit price are never selected, and
when nothing is selected the tick leaves the whole engine state
unchanged. -/
theorem tick_selects_crossed_pending_orders (tick : MarketTick)
    (now : Timestamp) (st : EngineState) (price : Decimal)
    (hparse : parseDecimal tick.last_price = some price) :
    (∀ o, o ∈ matchedOrders st.ordersCache tick price ↔
      (o ∈ st.ordersCache ∧ o.symbol = tick.symbol ∧ o.status = "pending" ∧
        ((o.side = "buy" ∧ ∃ limit, o.price = some limit ∧ price ≤ limit) ∨
         (o.side = "sell" ∧ ∃ limit, o.price = some limit ∧ price ≥ limit)))) ∧
    (∀ o, o ∈ matchedOrders st.ordersCache tick price → o.price ≠ none) ∧
    (matchedOrders st.ordersCache tick price = [] →
      process_market_tick tick now st = st) := by
  have hmem : ∀ o, o ∈ matchedOrders st.ordersCache tick price ↔
      (o ∈ st.ordersCache ∧ o.symbol = tick.symbol ∧ o.status = "pending" ∧
        ((o.side = "buy" ∧ ∃ limit, o.price = some limit ∧ price ≤ limit) ∨
         (o.side = "sell" ∧ ∃ limit, o.price = some limit ∧ price ≥ limit))) := by
    intro o
    rw [matchedOrders, List.mem_filter, tickMatches]
    simp only [Bool.and_eq_true, beq_iff_eq, crossesLimit_iff, and_assoc]
  refine ⟨hmem, ?_, ?_⟩
  · intro o ho
    rcases ((hmem o).mp ho).2.2.2 with ⟨-, limit, hl, -⟩ | ⟨-, limit, hl, -⟩ <;>
      simp [hl]
  · intro hempty
    rw [process_market_tick, hparse]
    show (matchedOrders st.ordersCache tick price).foldl
      (fun s o => fill_order o price now s) st = st
    rw [hempty]
    rfl

/-- Witness for tick_selects_crossed_pending_orders: a concrete tick
whose price string parses, over a one-order cache. -/
theorem tick_selects_crossed_pending_orders_witness :
    (∀ o, o ∈ matchedOrders
        [{ id := 10, account_id := 1, client_order_id := "x-1",
           symbol := "BTC-USD", side := "buy", order_type := "limit",
           quantity := 1, price := some 50000, filled_quantity := 0,
           avg_fill_price := none, status := "pending", created_at := 0,
           updated_at := 0 }]
        { symbol := "ETH-USD", last_price := "49999.99" } (4999999 / 100) ↔
      (o ∈ [{ id := 10, account_id := 1, client_order_id := "x-1",
              symbol := "BTC-USD", side := "buy", order_type := "limit",
              quantity := 1, price := some 50000, filled_quantity := 0,
              avg_fill_price := none, status := "pending", created_at := 0,
              updated_at := 0 }] ∧ o.symbol = "ETH-USD" ∧
        o.status = "pending" ∧
        ((o.side = "buy" ∧ ∃ limit, o.price = some limit
            ∧ (4999999 / 100 : ℚ) ≤ limit) ∨
         (o.side = "sell" ∧ ∃ limit, o.price = some limit
            ∧ (4999999 / 100 : ℚ) ≥ limit)))) ∧
    (∀ o, o ∈ matchedOrders
        [{ id := 10, account_id := 1, client_order_id := "x-1",
           symbol := "BTC-USD", side := "buy", order_type := "limit",
           quantity := 1, price := some 50000, filled_quantity := 0,
           avg_fill_price := none, status := "pending", created_at := 0,
           updated_at := 0 }]
        { symbol := "ETH-USD", last_price := "49999.99" } (4999999 / 100) →
      o.price ≠ none) ∧
    (matchedOrders
        [{ id := 10, account_id := 1, client_order_id := "x-1",
           symbol := "BTC-USD", side := "buy", order_type := "limit",
           quantity := 1, price := some 50000, filled_quantity := 0,
           avg_fill_price := none, status := "pending", created_at := 0,
           updated_at := 0 }]
        { symbol := "ETH-USD", last_price := "49999.99" } (4999999 / 100) = [] →
      process_market_tick
          { symbol := "ETH-USD", last_price := "49999.99" } 3
          { ordersStore := [], trades := [],
            ordersCache :=
              [{ id := 10, account_id := 1, client_order_id := "x-1",
                 symbol := "BTC-USD", side := "buy", order_type := "limit",
                 quantity := 1, price := some 50000, filled_quantity := 0,
                 avg_fill_price := none, status := "pending", created_at := 0,
                 updated_at := 0 }],
            positions := ⟨[], []⟩ }
        = { ordersStore := [], trades := [],
            ordersCache :=
              [{ id := 10, account_id := 1, client_order_id := "x-1",
                 symbol := "BTC-USD", side := "buy", order_type := "limit",
                 quantity := 1, price := some 50000, filled_quantity := 0,
                 avg_fill_price := none, status := "pending", created_at := 0,
                 updated_at := 0 }],
            positions := ⟨[], []⟩ }) :=
  tick_selects_crossed_pending_orders
    { symbol := "ETH-USD", last_price := "49999.99" } 3
    { ordersStore := [], trades := [],
      ordersCache :=
        [{ id := 10, account_id := 1, client_order_id := "x-1",
           symbol := "BTC-USD", side := "buy", order_type := "limit",
           quantity := 1, price := some 50000, filled_quantity := 0,
           avg_fill_price := none, status := "pending", created_at := 0,
           updated_at := 0 }],
      positions := ⟨[], []⟩ } ((4999999 : ℚ) / 100)
    (show parseDecimal "49999.99" = some ((4999999 : ℚ) / 100) by
      rw [parseDecimal,
        (by decide : parseDecimalParts "49999.99" = some (false, 4999999, 2))]
      norm_num)

end ExecutionCore

namespace ExecutionCore

/-- The pending limit order used to exercise the duplicate-fill path. -/
def fillBugOrder : Order :=
  { id := 10, account_id := 1, client_order_id := "x-1", symbol := "BTC-USD",
    side := "buy", order_type := "limit", quantity := 1, price := some 50000,
    filled_quantity := 0, avg_fill_price := none, status := "pending",
    created_at := 0, updated_at := 0 }

/-- Engine state holding only that pending order. -/
def fillBugState0 : EngineState :=
  { ordersStore := [fillBugOrder], trades := [], ordersCache := [fillBugOrder],
    positions := ⟨[], []⟩ }

def fillBugState1 : EngineState := fill_order fillBugOrder 49999 1 fillBugState0

def fillBugState2 : EngineState := fill_order fillBugOrder 49999 2 fillBugState1

/-- C2 failing input: two fill_order invocations for the same order
(as two concurrent ticks can produce after both select it from the
cache). The first fill marks the stored row filled; the second still
inserts a second trade row for the same order id and applies the fill
to the position again (net quantity 2 from a quantity-1 order), since
the order update runs WHERE id only, with no pending-status predicate
and no affected-row check. -/
theorem fill_order_never_skips :
    fillBugState1.ordersStore.map (fun o => o.status) = ["filled"] ∧
    fillBugState1.trades.length = 1 ∧
    fillBugState2.trades.length = 2 ∧
    (∀ t ∈ fillBugState2.trades, t.order_id = fillBugOrder.id) ∧
    fillBugState2.positions.positionsStore.map (fun p => p.net_quantity)
      = [2] := by
  refine ⟨?_, ?_, ?_, ?_, ?_⟩ <;>
    norm_num [fillBugState2, fillBugState1, fillBugState0, fill_order,
      fillBugOrder, apply_fill, calculate_new_position,
      calculate_new_position_from_zero, fill_qty_signed, sign_multiplier,
      cacheRemove, posMatches, posCacheInsert, List.find?, List.filter]

end ExecutionCore

namespace ExecutionCore

/-- Breaker states, from resilience/circuit_breaker.rs. -/
inductive CircuitBreakerState where
  | Closed
  | Open
  | HalfOpen
deriving Repr, DecidableEq

/-- Breaker configuration, from resilience/circuit_breaker.rs; the
timeout Duration is kept as its whole-second value, which is all the
code ever reads of it (timeout.as_secs()). -/
structure CircuitBreakerConfig where
  name : String
  failure_threshold : Nat
  success_threshold : Nat
  timeout_secs : Nat
  half_open_max_calls : Nat
deriving Repr, DecidableEq

/-- Default configuration (impl Default, lines 26-36): threshold 5,
success threshold 3, timeout 30 seconds, 3 half-open probes. -/
def CircuitBreakerConfig.default : CircuitBreakerConfig :=
  { name := "default", failure_threshold := 5, success_threshold := 3,
    timeout_secs := 30, half_open_max_calls := 3 }

/-- Mutable breaker fields, from struct CircuitBreaker. -/
structure CircuitBreaker where
  state : CircuitBreakerState
  failure_count : Nat
  success_count : Nat
  last_failure_time : Nat
  half_open_calls : Nat
deriving Repr, DecidableEq

/-- CircuitBreaker::new (lines 48-57). -/
def CircuitBreaker.new : CircuitBreaker :=
  { state := .Closed, failure_count := 0, success_count := 0,
    last_failure_time := 0, half_open_calls := 0 }

/-- Value of the expression Instant::now().elapsed().as_secs() used as
the clock by allow_call and record_failure. Instant::now() captures
the current monotonic instant and .elapsed() measures the time since
that same instant, taken immediately on the same line, so the duration
is far below one second and as_secs() truncates it to 0. The code
never reads any other clock. -/
def instantNowElapsedSecs : Nat := 0

/-- CircuitBreaker::allow_call from resilience/circuit_breaker.rs
lines 64-90, parameterized by the value the clock expression produces
at this call; returns the allow decision and the next state. Nat
subtraction truncates at zero as the u64 subtraction would wrap only
when last_failure exceeded now. -/
def allow_call (cfg : CircuitBreakerConfig) (cb : CircuitBreaker)
    (nowSecs : Nat) : Bool × CircuitBreaker :=
  match cb.state with
  | .Closed => (true, cb)
  | .Open =>
      let last_failure := cb.last_failure_time
      if nowSecs - last_failure ≥ cfg.timeout_secs then
        (true, { cb with state := .HalfOpen, half_open_calls := 0 })
      else
        (false, cb)
  | .HalfOpen =>
      let calls := cb.half_open_calls
      (decide (calls < cfg.half_open_max_calls),
        { cb with half_open_calls := calls + 1 })

/-- CircuitBreaker::record_failure from resilience/circuit_breaker.rs
lines 116-149, parameterized like allow_call. -/
def record_failure (cfg : CircuitBreakerConfig) (cb : CircuitBreaker)
    (nowSecs : Nat) : CircuitBreaker :=
  match cb.state with
  | .Closed =>
      let failures := cb.failure_count + 1
      if failures ≥ cfg.failure_threshold then
        { cb with
          failure_count := failures
          state := .Open
          last_failure_time := nowSecs }
      else
        { cb with failure_count := failures }
  | .HalfOpen =>
      { cb with
        state := .Open
        last_failure_time := nowSecs
        success_count := 0 }
  | .Open => cb

/-- allow_call as the program actually runs it: the clock expression
evaluates to instantNowElapsedSecs. -/
def allow_call_run (cfg : CircuitBreakerConfig) (cb : CircuitBreaker) :
    Bool × CircuitBreaker :=
  allow_call cfg cb instantNowElapsedSecs

/-- record_failure as the program actually runs it. -/
def record_failure_run (cfg : CircuitBreakerConfig) (cb : CircuitBreaker) :
    CircuitBreaker :=
  record_failure cfg cb instantNowElapsedSecs

/-- The breaker driven Open by five consecutive recorded failures
under the default configuration. -/
def openedBreaker : CircuitBreaker :=
  record_failure_run CircuitBreakerConfig.default
    (record_failure_run CircuitBreakerConfig.default
      (record_failure_run CircuitBreakerConfig.default
        (record_failure_run CircuitBreakerConfig.default
          (record_failure_run CircuitBreakerConfig.default
            CircuitBreaker.new))))

/-- Any Open breaker whose last_failure_time was written by
record_failure (hence equal to the constant clock value) is never
allowed through and never transitions to HalfOpen, for every
configuration whose timeout is at least one second. -/
theorem open_allow_call_blocked (cb : CircuitBreaker)
    (hst : cb.state = CircuitBreakerState.Open)
    (hlf : cb.last_failure_time = instantNowElapsedSecs)
    (cfg : CircuitBreakerConfig) (htm : 1 ≤ cfg.timeout_secs) :
    allow_call_run cfg cb = (false, cb) := by
  have hc : ¬ (instantNowElapsedSecs - cb.last_failure_time
      ≥ cfg.timeout_secs) := by
    rw [hlf]
    simp only [instantNowElapsedSecs]
    omega
  simp [allow_call_run, allow_call, hst, hc]

/-- C6 failing input: after five failures under the default
configuration (timeout 30 s) the breaker is Open with
last_failure_time 0; every later allow_call computes the clock value
0 again, so the elapsed comparison is 0 - 0 against 30 and allow_call
returns false and leaves the breaker Open, no matter how much real
time has passed since it opened - real time never enters the
computation. Iterating allow_call changes nothing, so the first
allow_call after the timeout does not transition to HalfOpen and does
not return true. -/
theorem open_breaker_never_half_opens :
    openedBreaker.state = CircuitBreakerState.Open ∧
    openedBreaker.last_failure_time = instantNowElapsedSecs ∧
    allow_call_run CircuitBreakerConfig.default openedBreaker
      = (false, openedBreaker) ∧
    (allow_call_run CircuitBreakerConfig.default
        (allow_call_run CircuitBreakerConfig.default openedBreaker).2).1
      = false := by
  refine ⟨by decide, by decide, open_allow_call_blocked _ (by decide)
    (by decide) _ (by decide), by decide⟩

end ExecutionCore
